import Mathlib

/-!
# Verification of the VOLTTRON Home Assistant driver interface

Shallow embedding of
`services/core/PlatformDriverAgent/platform_driver/interfaces/home_assistant.py`.

Python values flowing through the driver (registry fields, coerced write
payloads, hub attribute values, cached register values) are modelled by
`PValue`; Python floats are idealised as rationals.  HTTP traffic is
modelled by explicit hub oracles (`ServiceCall → PostOutcome` for POSTs,
`String → GetOutcome` for GETs), and raised Python exceptions by
`Except PyError`.
-/

namespace HomeAssistant

/-- A dynamically typed Python value as used by the driver: `None`,
`int`, `float` (idealised as `ℚ`), `str`, or `bool`. -/
inductive PValue where
  | vnone
  | vint (n : Int)
  | vfloat (q : Rat)
  | vstr (s : String)
  | vbool (b : Bool)
  deriving DecidableEq, Repr

/-- Python `isinstance(v, int)`: true for `int` and for `bool`
(`bool` is a subclass of `int` in Python). -/
def PValue.isPyInt : PValue → Bool
  | .vint _ => true
  | .vbool _ => true
  | _ => false

/-- The integer carried by a Python `int`-like value (`bool` counts as
`0`/`1`); `0` for the other shapes, which are only consulted after an
`isPyInt` check in the source. -/
def PValue.asInt : PValue → Int
  | .vint n => n
  | .vbool b => if b then 1 else 0
  | _ => 0

/-- Numeric view used by arithmetic such as the thermostat conversion
`(temperature - 32) * 5 / 9`: Python accepts `int`, `float` and `bool`
operands and raises `TypeError` otherwise. -/
def PValue.toRat : PValue → Option Rat
  | .vint n => some (n : Rat)
  | .vfloat q => some q
  | .vbool b => some (if b then 1 else 0)
  | _ => none

/-- Python `str.startswith`, evaluated on the underlying character
list (the byte-level core `String.startsWith` does not reduce in the
kernel). -/
def pyStartsWith (s pre : String) : Bool :=
  pre.data.isPrefixOf s.data

/-- Python `str.lower`, ASCII case folding on the character list. -/
def pyLower (s : String) : String :=
  String.mk (s.data.map Char.toLower)

/-- Python `str(v)` for the value shapes the driver feeds through it
(registry fields and write payloads).  The decimal text of a non-integral
float is approximated by the `Rat` rendering; no claim depends on it. -/
def pyStr : PValue → String
  | .vnone => "None"
  | .vint n => toString n
  | .vfloat q => if q.den = 1 then toString q.num ++ ".0" else toString q
  | .vstr s => s
  | .vbool b => if b then "True" else "False"

/-- Python `int(q)` on a float: truncation toward zero. -/
def pyTruncInt (q : Rat) : Int :=
  if 0 ≤ q then ⌊q⌋ else ⌈q⌉

/-- Decimal digit run to a natural number (list-level, so that
concrete instances reduce). -/
def digitsToNat (cs : List Char) : Option Nat :=
  if cs ≠ [] ∧ cs.all Char.isDigit then
    some (cs.foldl (fun acc c => acc * 10 + (c.toNat - 48)) 0)
  else none

/-- Strip leading and trailing whitespace, as Python's numeric
constructors do on string input. -/
def pyStripChars (cs : List Char) : List Char :=
  ((cs.dropWhile Char.isWhitespace).reverse.dropWhile Char.isWhitespace).reverse

/-- Split off an optional leading sign, returning the sign as `1` or
`-1`. -/
def pySign (cs : List Char) : Int × List Char :=
  match cs with
  | '-' :: rest => (-1, rest)
  | '+' :: rest => (1, rest)
  | _ => (1, cs)

/-- Python `float(s)` on a string, restricted to plain decimal literals
(optional sign, digits, optional fractional part); exponent and special
forms are out of the modelled domain. -/
def pyParseFloat (s : String) : Option Rat :=
  let (sign, body) := pySign (pyStripChars s.data)
  match body.splitOn '.' with
  | [w] => (digitsToNat w).map (fun n => (sign : Rat) * (n : Rat))
  | [w, f] =>
    if w ≠ [] ∨ f ≠ [] then
      if (w.all Char.isDigit) ∧ (f.all Char.isDigit) then
        let wn := ((digitsToNat w).getD 0 : Rat)
        let fn := ((digitsToNat f).getD 0 : Rat)
        some ((sign : Rat) * (wn + fn / ((10 : Rat) ^ f.length)))
      else none
    else none
  | _ => none

/-- Python `int(s)` on a string, restricted to plain decimal integer
literals. -/
def pyParseInt (s : String) : Option Int :=
  let (sign, body) := pySign (pyStripChars s.data)
  (digitsToNat body).map (fun n => sign * (n : Int))

/-- The `Type` column of a registry entry, mapped through `type_mapping`
to one of Python's `str`, `int`, `float`, `bool` constructors. -/
inductive RegType where
  | str
  | int
  | float
  | bool
  deriving DecidableEq, Repr

/-- Source `type_mapping`: registry `Type` strings to value constructors; the
driver falls back to `str` for unknown names
(`type_mapping.get(type_name, str)`). -/
def type_mapping (type_name : String) : Option RegType :=
  if type_name == "string" then some .str
  else if type_name == "int" then some .int
  else if type_name == "integer" then some .int
  else if type_name == "float" then some .float
  else if type_name == "bool" then some .bool
  else if type_name == "boolean" then some .bool
  else none

/-- Coercion `register.reg_type(value)`: apply the declared Python type
constructor to the written value; `none` models a raised
`TypeError`/`ValueError` (the spec's type-coercion failure). -/
def applyRegType : RegType → PValue → Option PValue
  | .str, v => some (.vstr (pyStr v))
  | .int, .vint n => some (.vint n)
  | .int, .vbool b => some (.vint (if b then 1 else 0))
  | .int, .vfloat q => some (.vint (pyTruncInt q))
  | .int, .vstr s => (pyParseInt s).map .vint
  | .int, .vnone => none
  | .float, .vint n => some (.vfloat (n : Rat))
  | .float, .vbool b => some (.vfloat (if b then 1 else 0))
  | .float, .vfloat q => some (.vfloat q)
  | .float, .vstr s => (pyParseFloat s).map .vfloat
  | .float, .vnone => none
  | .bool, .vnone => some (.vbool false)
  | .bool, .vint n => some (.vbool (n != 0))
  | .bool, .vfloat q => some (.vbool (q != 0))
  | .bool, .vstr s => some (.vbool (s.length != 0))
  | .bool, .vbool b => some (.vbool b)

/-- Python exceptions raised by the driver. -/
inductive PyError where
  | ioError (msg : String)
  | valueError (msg : String)
  | typeError (msg : String)
  | httpError (msg : String)
  deriving DecidableEq, Repr

/-- One POST to the Home Assistant services API, identified by endpoint
and payload exactly as built by the driver's helper methods. -/
inductive ServiceCall where
  | lightTurnOn (entity_id : String)
  | lightTurnOff (entity_id : String)
  | lightBrightness (entity_id : String) (brightness : Int)
  | inputBooleanService (entity_id : String) (service : String)
  | climateSetHvacMode (entity_id : String) (hvac_mode : String)
  | climateSetTemperature (entity_id : String) (temperature : PValue)
  | fanTurnOn (entity_id : String)
  | fanTurnOff (entity_id : String)
  | fanSetSpeed (entity_id : String) (speed : Int)
  | switchTurnOn (entity_id : String)
  | switchTurnOff (entity_id : String)
  | coverOpen (entity_id : String)
  | coverClose (entity_id : String)
  | coverSetPosition (entity_id : String) (position : Int)
  deriving DecidableEq, Repr

/-- Outcome of one POST as seen by the driver: an HTTP response with a
status code and body text, or a raised `requests.RequestException`. -/
inductive PostOutcome where
  | resp (status : Nat) (text : String)
  | connError (msg : String)
  deriving DecidableEq, Repr

/-- The hub's POST behaviour, as an oracle from call to outcome. -/
def PostHub := ServiceCall → PostOutcome

/-- Helper `_post_method`: raises (as `Except.error`) on a non-200 status or a
connection error, succeeds silently on 200. -/
def post_method (post : PostHub) (c : ServiceCall) (operation_description : String) :
    Except PyError Unit :=
  match post c with
  | .resp status text =>
    if status = 200 then .ok ()
    else
      .error (.httpError ("Failed to " ++ operation_description ++ ". Status code: "
        ++ toString status ++ ". Response: " ++ text))
  | .connError e =>
    .error (.httpError ("Error when attempting - " ++ operation_description ++ " : " ++ e))

/-- A `HomeAssistantRegister`: one configured point.  The constructor in
the source sets `self.value = None` and never reads its `default_value`
parameter; `value` is the point's mutable cache. -/
structure HomeAssistantRegister where
  read_only : Bool
  point_name : String
  units : String
  reg_type : RegType
  attributes : List (String × PValue)
  entity_id : String
  entity_point : String
  value : PValue
  deriving DecidableEq, Repr

/-- Constructor `HomeAssistantRegister.__init__`: `default_value` is accepted but
ignored — the cached `value` is unconditionally initialised to `None`. -/
def HomeAssistantRegister.make (read_only : Bool) (pointName : String) (units : String)
    (reg_type : RegType) (attributes : List (String × PValue)) (entity_id : String)
    (entity_point : String) (default_value : PValue) (description : String) :
    HomeAssistantRegister :=
  { read_only := read_only
    point_name := pointName
    units := units
    reg_type := reg_type
    attributes := attributes
    entity_id := entity_id
    entity_point := entity_point
    value := PValue.vnone }

/-- The entity-id prefix dispatch of `_set_point` / `_scrape_all`,
tested in source order. -/
inductive HADomain where
  | light
  | inputBoolean
  | climate
  | fan
  | switch
  | cover
  | generic
  deriving DecidableEq, Repr

/-- Prefix match on the entity id, in the order the source tests it. -/
def domainOf (entity_id : String) : HADomain :=
  if pyStartsWith entity_id "light." then .light
  else if pyStartsWith entity_id "input_boolean." then .inputBoolean
  else if pyStartsWith entity_id "climate." then .climate
  else if pyStartsWith entity_id "fan." then .fan
  else if pyStartsWith entity_id "switch." then .switch
  else if pyStartsWith entity_id "cover." then .cover
  else .generic

instance {ε α : Type} [DecidableEq ε] [DecidableEq α] : DecidableEq (Except ε α) := fun x y =>
  match x, y with
  | .ok a, .ok b =>
    if h : a = b then isTrue (by rw [h]) else isFalse (by simp [h])
  | .error a, .error b =>
    if h : a = b then isTrue (by rw [h]) else isFalse (by simp [h])
  | .ok _, .error _ => isFalse (by simp)
  | .error _, .ok _ => isFalse (by simp)

/-- Result of one `_set_point` call: the POSTs attempted (each branch
attempts at most one), the returned value or raised exception, and the
register's cached `value` afterwards. -/
structure WriteResult where
  calls : List ServiceCall
  outcome : Except PyError PValue
  newValue : PValue
  deriving DecidableEq, Repr

/-- Attempt one POST through `_post_method`; on success `_set_point`
falls through to `return register.value`. -/
def runPost (post : PostHub) (c : ServiceCall) (desc : String) (v : PValue) : WriteResult :=
  match post_method post c desc with
  | .ok _ => ⟨[c], .ok v, v⟩
  | .error e => ⟨[c], .error e, v⟩

/-- Propagate the outcome of a climate helper (its attempted calls and
raised error, if any) back through `_set_point`, which on success falls
through to `return register.value`. -/
def liftPair (p : List ServiceCall × Except PyError Unit) (v : PValue) : WriteResult :=
  match p with
  | (cs, .ok _) => ⟨cs, .ok v, v⟩
  | (cs, .error e) => ⟨cs, .error e, v⟩

/-- The numeric encoding `_set_point` uses for climate hvac modes:
`0 → off`, `2 → heat`, `3 → cool`, `4 → auto`, every other integer
rejected (the source guards with `value in [0, 2, 3, 4]` and then
branches on each member). -/
def climateEncode (n : Int) : Option String :=
  if n = 0 then some "off"
  else if n = 2 then some "heat"
  else if n = 3 then some "cool"
  else if n = 4 then some "auto"
  else none

/-- The decoding `_scrape_all` applies to a climate entity's state
string (`entity_data.get("state", None)` may be absent, hence the
`Option String` argument); an unmatched state raises `ValueError`. -/
def climateDecode (state : Option String) : Option Int :=
  if state = some "off" then some 0
  else if state = some "heat" then some 2
  else if state = some "cool" then some 3
  else if state = some "auto" then some 4
  else none

/-- Python `round(x, 1)`: round to one decimal, ties to even (floats
idealised as rationals). -/
def roundHalfEven (q : Rat) : Int :=
  if q - ⌊q⌋ < 1/2 then ⌊q⌋
  else if q - ⌊q⌋ > 1/2 then ⌊q⌋ + 1
  else if ⌊q⌋ % 2 = 0 then ⌊q⌋ else ⌊q⌋ + 1

/-- Python `round(-, 1)` at one decimal place. -/
def pyRound1 (q : Rat) : Rat := (roundHalfEven (10 * q) : Rat) / 10

/-- Method `change_thermostat_mode`: no-op unless the entity id has the
`climate.` prefix, otherwise POST `set_hvac_mode`. -/
def change_thermostat_mode (post : PostHub) (entity_id mode : String) :
    List ServiceCall × Except PyError Unit :=
  if ¬ pyStartsWith entity_id "climate." then ([], .ok ())
  else
    let c := ServiceCall.climateSetHvacMode entity_id mode
    ([c], post_method post c ("change mode of " ++ entity_id ++ " to " ++ mode))

/-- Method `set_thermostat_temperature`: no-op unless the entity id has the
`climate.` prefix; when the interface-wide `units` field equals `"C"`
the payload is `round((temperature - 32) * 5 / 9, 1)` (a `TypeError` if
the value is not numeric), otherwise the value passes through
unchanged. -/
def set_thermostat_temperature (post : PostHub) (units : String) (entity_id : String)
    (temperature : PValue) : List ServiceCall × Except PyError Unit :=
  if ¬ pyStartsWith entity_id "climate." then ([], .ok ())
  else if units = "C" then
    match temperature.toRat with
    | none =>
      ([], .error (.typeError "unsupported operand type for -: temperature is not numeric"))
    | some t =>
      let c := ServiceCall.climateSetTemperature entity_id (.vfloat (pyRound1 ((t - 32) * 5 / 9)))
      ([c], post_method post c
        ("set temperature of " ++ entity_id ++ " to " ++ pyStr temperature))
  else
    let c := ServiceCall.climateSetTemperature entity_id temperature
    ([c], post_method post c
      ("set temperature of " ++ entity_id ++ " to " ++ pyStr temperature))

/-- The `light.` branch of `_set_point`: `state` accepts `0`/`1`
(`turn_off`/`turn_on`), `brightness` accepts an integer in `[0, 255]`,
any other sub-point raises `ValueError`. -/
def set_point_light (post : PostHub) (r : HomeAssistantRegister) (v : PValue) : WriteResult :=
  if r.entity_point = "state" then
    if v.isPyInt ∧ (v.asInt = 0 ∨ v.asInt = 1) then
      if v.asInt = 1 then
        runPost post (.lightTurnOn r.entity_id) ("turn on " ++ r.entity_id) v
      else
        runPost post (.lightTurnOff r.entity_id) ("turn off " ++ r.entity_id) v
    else
      ⟨[], .error (.valueError ("State value for " ++ r.entity_id
        ++ " should be an integer value of 1 or 0")), v⟩
  else if r.entity_point = "brightness" then
    if v.isPyInt ∧ 0 ≤ v.asInt ∧ v.asInt ≤ 255 then
      runPost post (.lightBrightness r.entity_id v.asInt)
        ("set brightness of " ++ r.entity_id ++ " to " ++ pyStr v) v
    else
      ⟨[], .error (.valueError "Brightness value should be an integer between 0 and 255"), v⟩
  else
    ⟨[], .error (.valueError ("Unexpected point_name " ++ r.point_name
      ++ " for register " ++ r.entity_id)), v⟩

/-- Method `set_input_boolean`: issues a bare `requests.post` with no
try/except — the response's status code is only inspected for logging,
so a non-200 response never raises, but a connection error
(`requests.RequestException`) propagates uncaught to the caller. -/
def set_input_boolean (post : PostHub) (entity_id state : String) :
    List ServiceCall × Except PyError Unit :=
  let service := if state == "on" then "turn_on" else "turn_off"
  let c := ServiceCall.inputBooleanService entity_id service
  ([c],
    match post c with
    | .resp _ _ => .ok ()
    | .connError e => .error (.httpError e))

/-- The `input_boolean.` branch of `_set_point`: `state` accepts
`0`/`1` and calls `set_input_boolean` with `"on"`/`"off"` (so a non-200
response is logged and swallowed while a connection error propagates);
any other sub-point is merely logged
(`"Currently, input_booleans only support state"`) and the write
returns normally without any POST. -/
def set_point_input_boolean (post : PostHub) (r : HomeAssistantRegister)
    (v : PValue) : WriteResult :=
  if r.entity_point = "state" then
    if v.isPyInt ∧ (v.asInt = 0 ∨ v.asInt = 1) then
      liftPair (set_input_boolean post r.entity_id (if v.asInt = 1 then "on" else "off")) v
    else
      ⟨[], .error (.valueError ("State value for " ++ r.entity_id
        ++ " should be an integer value of 1 or 0")), v⟩
  else
    ⟨[], .ok v, v⟩

/-- The `climate.` branch of `_set_point`: `state` accepts the numeric
modes of `climateEncode`, `temperature` defers to
`set_thermostat_temperature`, any other sub-point raises
`ValueError`. -/
def set_point_climate (post : PostHub) (units : String) (r : HomeAssistantRegister)
    (v : PValue) : WriteResult :=
  if r.entity_point = "state" then
    if v.isPyInt then
      match climateEncode v.asInt with
      | some mode => liftPair (change_thermostat_mode post r.entity_id mode) v
      | none =>
        ⟨[], .error (.valueError "Climate state should be an integer value of 0, 2, 3, or 4"), v⟩
    else
      ⟨[], .error (.valueError "Climate state should be an integer value of 0, 2, 3, or 4"), v⟩
  else if r.entity_point = "temperature" then
    liftPair (set_thermostat_temperature post units r.entity_id v) v
  else
    ⟨[], .error (.valueError ("Currently set_point is supported only for thermostats state and temperature "
      ++ r.entity_id)), v⟩

/-- The `fan.` branch of `_set_point`: `state` accepts `0`/`1`,
`percentage` accepts an integer in `[0, 100]`, any other sub-point
raises `ValueError`. -/
def set_point_fan (post : PostHub) (r : HomeAssistantRegister) (v : PValue) : WriteResult :=
  if r.entity_point = "state" then
    if v.isPyInt ∧ (v.asInt = 0 ∨ v.asInt = 1) then
      if v.asInt = 1 then
        runPost post (.fanTurnOn r.entity_id) ("turn on " ++ r.entity_id) v
      else
        runPost post (.fanTurnOff r.entity_id) ("turn off " ++ r.entity_id) v
    else
      ⟨[], .error (.valueError ("State value for " ++ r.entity_id
        ++ " should be an integer value of 1 or 0")), v⟩
  else if r.entity_point = "percentage" then
    if v.isPyInt ∧ 0 ≤ v.asInt ∧ v.asInt ≤ 100 then
      runPost post (.fanSetSpeed r.entity_id v.asInt)
        ("set speed of " ++ r.entity_id ++ " to " ++ pyStr v) v
    else
      ⟨[], .error (.valueError "Fan percentage should be an integer between 0 and 100"), v⟩
  else
    ⟨[], .error (.valueError ("Unexpected point_name " ++ r.point_name
      ++ " for fan " ++ r.entity_id)), v⟩

/-- The `switch.` branch of `_set_point`: `state` accepts `0`/`1`, any
other sub-point raises `ValueError`. -/
def set_point_switch (post : PostHub) (r : HomeAssistantRegister) (v : PValue) : WriteResult :=
  if r.entity_point = "state" then
    if v.isPyInt ∧ (v.asInt = 0 ∨ v.asInt = 1) then
      if v.asInt = 1 then
        runPost post (.switchTurnOn r.entity_id) ("turn on switch " ++ r.entity_id) v
      else
        runPost post (.switchTurnOff r.entity_id) ("turn off switch " ++ r.entity_id) v
    else
      ⟨[], .error (.valueError ("State value for " ++ r.entity_id
        ++ " should be an integer value of 1 or 0")), v⟩
  else
    ⟨[], .error (.valueError ("Unexpected point_name " ++ r.point_name
      ++ " for switch " ++ r.entity_id)), v⟩

/-- The `cover.` branch of `_set_point`: `state` accepts `1` (open) and
`0` (close), `position` accepts an integer in `[0, 100]`, any other
sub-point raises `ValueError`. -/
def set_point_cover (post : PostHub) (r : HomeAssistantRegister) (v : PValue) : WriteResult :=
  if r.entity_point = "state" then
    if v.isPyInt ∧ (v.asInt = 0 ∨ v.asInt = 1) then
      if v.asInt = 1 then
        runPost post (.coverOpen r.entity_id) ("open cover " ++ r.entity_id) v
      else
        runPost post (.coverClose r.entity_id) ("close cover " ++ r.entity_id) v
    else
      ⟨[], .error (.valueError ("State value for " ++ r.entity_id
        ++ " should be an integer value of 1 or 0")), v⟩
  else if r.entity_point = "position" then
    if v.isPyInt ∧ 0 ≤ v.asInt ∧ v.asInt ≤ 100 then
      runPost post (.coverSetPosition r.entity_id v.asInt)
        ("set position of " ++ r.entity_id ++ " to " ++ pyStr v) v
    else
      ⟨[], .error (.valueError "Cover position should be an integer between 0 and 100"), v⟩
  else
    ⟨[], .error (.valueError ("Unexpected point_name " ++ r.point_name
      ++ " for cover " ++ r.entity_id)), v⟩

/-- Method `Interface._set_point`: rejects read-only points before any other
work, then assigns `register.value = register.reg_type(value)` — the
cache is updated *before* validation and before any hub call — and
dispatches on the entity id's domain prefix. -/
def set_point (post : PostHub) (units : String) (r : HomeAssistantRegister)
    (value : PValue) : WriteResult :=
  if r.read_only then
    ⟨[], .error (.ioError ("Trying to write to a point configured read only: " ++ r.point_name)),
      r.value⟩
  else
    match applyRegType r.reg_type value with
    | none => ⟨[], .error (.typeError ("could not coerce written value for " ++ r.point_name)),
        r.value⟩
    | some v =>
      match domainOf r.entity_id with
      | .light => set_point_light post r v
      | .inputBoolean => set_point_input_boolean post r v
      | .climate => set_point_climate post units r v
      | .fan => set_point_fan post r v
      | .switch => set_point_switch post r v
      | .cover => set_point_cover post r v
      | .generic =>
        ⟨[], .error (.valueError ("Unsupported entity_id: " ++ r.entity_id
          ++ ". Currently set_point is supported only for thermostats, lights, fans, switches, covers and input_booleans")), v⟩

/-- The JSON body of a 200 response from `GET /api/states/{entity_id}`:
`entity_data.get("state", None)` and the attributes dictionary. -/
structure EntityData where
  state : Option String
  attributes : List (String × PValue)
  deriving DecidableEq, Repr

/-- Attribute lookup `entity_data.get("attributes", 0).get(key, 0)`. -/
def EntityData.attr (d : EntityData) (k : String) : PValue :=
  (d.attributes.lookup k).getD (.vint 0)

/-- Outcome of one `GET /api/states/{entity_id}` as seen by the driver. -/
inductive GetOutcome where
  | resp (status : Nat) (body : EntityData) (text : String)
  | connError (msg : String)
  deriving Repr

/-- The hub's GET behaviour, as an oracle from entity id to outcome. -/
def GetHub := String → GetOutcome

/-- Method `get_entity_data`: returns the parsed body on a 200 response and
raises on any other status; a connection error from the underlying
transport propagates uncaught. -/
def get_entity_data (hub : GetHub) (point_name : String) : Except PyError EntityData :=
  match hub point_name with
  | .resp status body text =>
    if status = 200 then .ok body
    else
      .error (.httpError ("Request failed with status code " ++ toString status
        ++ ", Point name: " ++ point_name ++ ", response: " ++ text))
  | .connError msg => .error (.httpError msg)

/-- Method `Interface.get_point`: fetch the entity's raw data and return —
with no domain decode — the raw state (when the register's
*Volttron point name* is the literal `"state"`) or the raw attribute
named by the Volttron point name, defaulting to `0`. -/
def get_point (hub : GetHub) (r : HomeAssistantRegister) : Except PyError PValue :=
  match get_entity_data hub r.entity_id with
  | .error e => .error e
  | .ok entity_data =>
    if r.point_name = "state" then
      .ok (match entity_data.state with
        | some s => .vstr s
        | none => .vnone)
    else
      .ok (entity_data.attr r.point_name)

/-- The shared `state`-decoding used by the light / input_boolean /
fan / switch arms of `_scrape_all`: `"on" → 1`, `"off" → 0`, anything
else makes no assignment (the point is silently skipped); non-`state`
sub-points read the raw attribute. -/
def scrape_on_off (entity_data : EntityData) (r : HomeAssistantRegister) : Option PValue :=
  if r.entity_point = "state" then
    match entity_data.state with
    | some "on" => some (.vint 1)
    | some "off" => some (.vint 0)
    | _ => none
  else
    some (entity_data.attr r.entity_point)

/-- The `cover.` arm of `_scrape_all`: `open`/`opening → 1`,
`closed`/`closing → 0`, and any other state is logged as a warning but
still recorded as `0`. -/
def scrape_cover (entity_data : EntityData) (r : HomeAssistantRegister) : Option PValue :=
  if r.entity_point = "state" then
    match entity_data.state with
    | some "open" => some (.vint 1)
    | some "opening" => some (.vint 1)
    | some "closed" => some (.vint 0)
    | some "closing" => some (.vint 0)
    | _ => some (.vint 0)
  else
    some (entity_data.attr r.entity_point)

/-- The loop body of `_scrape_all` for one register: `none` means the
point ends up omitted from the result (either an exception was raised
and caught — transport failure, unexpected climate state — or an
unrecognized on/off state made no assignment).  `some v` means
`register.value = v; result[register.point_name] = v` was executed. -/
def scrape_register (hub : GetHub) (r : HomeAssistantRegister) : Option PValue :=
  match get_entity_data hub r.entity_id with
  | .error _ => none
  | .ok entity_data =>
    match domainOf r.entity_id with
    | .climate =>
      if r.entity_point = "state" then
        (climateDecode entity_data.state).map .vint
      else
        some (entity_data.attr r.entity_point)
    | .light => scrape_on_off entity_data r
    | .inputBoolean => scrape_on_off entity_data r
    | .fan => scrape_on_off entity_data r
    | .switch => scrape_on_off entity_data r
    | .cover => scrape_cover entity_data r
    | .generic =>
      if r.entity_point = "state" then
        some (match entity_data.state with
          | some s => .vstr s
          | none => .vnone)
      else
        some (entity_data.attr r.entity_point)

/-- Python dict assignment `result[k] = v`: replace in place if the key
is present, else append. -/
def dictInsert (m : List (String × PValue)) (k : String) (v : PValue) :
    List (String × PValue) :=
  if m.any (fun p => p.1 == k) then
    m.map (fun p => if p.1 == k then (k, v) else p)
  else
    m ++ [(k, v)]

/-- The accumulation loop of `_scrape_all` over an already-ordered
register list. -/
def scrape_list (hub : GetHub) (regs : List HomeAssistantRegister) :
    List (String × PValue) :=
  regs.foldl (fun result r =>
    match scrape_register hub r with
    | some v => dictInsert result r.point_name v
    | none => result) []

/-- Method `Interface._scrape_all`: iterate `read_registers + write_registers`
(read-only registers first, in insertion order), catching every
per-register exception, and return the assembled point-name → value
dictionary. -/
def scrape_all (hub : GetHub) (regs : List HomeAssistantRegister) :
    List (String × PValue) :=
  scrape_list hub (regs.filter (fun r => r.read_only) ++ regs.filter (fun r => !r.read_only))

/-- One registry entry as consumed by `parse_config`.  `Writable`
defaults to `""` and `Type` to `"string"` when absent; the schema's
`Starting Value` column is carried here although `parse_config` never
reads it. -/
structure RegDef where
  entity_id : String
  entity_point : String
  volttron_point_name : String
  units : String
  writable : PValue
  type_name : String
  notes : String
  starting_value : PValue
  attributes : List (String × PValue)
  deriving DecidableEq, Repr

/-- The interface-wide mutable fields touched by `parse_config`
(`self.point_name`, `self.units`), the register table built by
`insert_register`, and the defaults recorded by `set_default`. -/
structure DriverState where
  point_name : Option String
  units : Option String
  registers : List HomeAssistantRegister
  defaults : List (String × PValue)
  deriving DecidableEq, Repr

/-- Constructor `Interface.__init__`: all interface fields start unset. -/
def initialState : DriverState :=
  { point_name := none, units := none, registers := [], defaults := [] }

/-- One iteration of the `parse_config` loop: entries with a falsy
`Entity ID` are skipped; otherwise `self.point_name` and `self.units`
are overwritten with this entry's columns, `default_value` is bound to
the literal string `"Starting Value"` (not the entry's column), a
register is constructed (its cache unconditionally `None`), the
always-true `default_value is not None` guard records
`set_default(self.point_name, register.value)`, and the register is
appended. -/
def parse_config_entry (s : DriverState) (regDef : RegDef) : DriverState :=
  if regDef.entity_id = "" then s
  else
    let read_only := pyLower (pyStr regDef.writable) != "true"
    let point_name := regDef.volttron_point_name
    let units := regDef.units
    let default_value := PValue.vstr "Starting Value"
    let reg_type := (type_mapping regDef.type_name).getD .str
    let register := HomeAssistantRegister.make read_only point_name units reg_type
      regDef.attributes regDef.entity_id regDef.entity_point default_value regDef.notes
    { point_name := some point_name
      units := some units
      registers := s.registers ++ [register]
      defaults := s.defaults ++ [(point_name, register.value)] }

/-- Method `Interface.parse_config`: fold the loop body over the registry
entries (a `None` registry is modelled by the empty list). -/
def parse_config (s : DriverState) (config_dict : List RegDef) : DriverState :=
  config_dict.foldl parse_config_entry s

/-- The exception class of a `PyError`, for statements that classify an
outcome without fixing its message text. -/
inductive PyErrorKind where
  | ioError
  | valueError
  | typeError
  | httpError
  deriving DecidableEq, Repr

/-- Classify a raised error. -/
def PyError.kind : PyError → PyErrorKind
  | .ioError _ => .ioError
  | .valueError _ => .valueError
  | .typeError _ => .typeError
  | .httpError _ => .httpError

/-- Error class of a write outcome: `none` when the write returned
normally. -/
def outcomeKind : Except PyError PValue → Option PyErrorKind
  | .ok _ => none
  | .error e => some e.kind

section Fixtures

/-- Fixture: a hub whose every POST fails with HTTP 500. -/
def post500 : PostHub := fun _ => .resp 500 "Internal Server Error"

/-- Fixture: a hub whose every POST succeeds with HTTP 200. -/
def post200 : PostHub := fun _ => .resp 200 "OK"

/-- Fixture: a writable light state point, cache seeded at `0`. -/
def lightStateReg : HomeAssistantRegister :=
  { read_only := false, point_name := "light_state", units := "On / Off",
    reg_type := .int, attributes := [], entity_id := "light.kitchen",
    entity_point := "state", value := .vint 0 }

/-- Fixture: a writable fan state point. -/
def fanStateReg : HomeAssistantRegister :=
  { read_only := false, point_name := "fan_state", units := "On / Off",
    reg_type := .int, attributes := [], entity_id := "fan.attic",
    entity_point := "state", value := .vint 0 }

/-- Fixture: a writable switch state point. -/
def switchStateReg : HomeAssistantRegister :=
  { read_only := false, point_name := "switch_state", units := "On / Off",
    reg_type := .int, attributes := [], entity_id := "switch.pump",
    entity_point := "state", value := .vint 0 }

/-- Fixture: a writable cover state point. -/
def coverStateReg : HomeAssistantRegister :=
  { read_only := false, point_name := "cover_state", units := "Open / Closed",
    reg_type := .int, attributes := [], entity_id := "cover.hall_window",
    entity_point := "state", value := .vint 0 }

/-- Fixture: a writable input_boolean point whose configured sub-point
is not `state`. -/
def inputBooleanPctReg : HomeAssistantRegister :=
  { read_only := false, point_name := "bool_pct", units := "Percent",
    reg_type := .int, attributes := [], entity_id := "input_boolean.volttrontest",
    entity_point := "percentage", value := .vint 0 }

/-- Fixture: a writable climate temperature point typed `float`. -/
def climateTempReg : HomeAssistantRegister :=
  { read_only := false, point_name := "temp_set", units := "F",
    reg_type := .float, attributes := [], entity_id := "climate.thermostat",
    entity_point := "temperature", value := .vint 70 }

/-- Fixture: a writable light brightness point. -/
def brightnessReg : HomeAssistantRegister :=
  { read_only := false, point_name := "brightness", units := "",
    reg_type := .int, attributes := [], entity_id := "light.kitchen",
    entity_point := "brightness", value := .vint 0 }

/-- Fixture: a read-only generic sensor point. -/
def sensorReg : HomeAssistantRegister :=
  { read_only := true, point_name := "outside_temp", units := "F",
    reg_type := .float, attributes := [], entity_id := "sensor.outside",
    entity_point := "state", value := .vnone }

/-- Fixture: a GET oracle — the kitchen light reports state `on`, the
attic fan `off`, the hall cover the unexpected state `stuck`, and
every other entity (in particular `switch.pump`) answers HTTP 500. -/
def exampleGetHub : GetHub := fun entity_id =>
  if entity_id = "light.kitchen" then .resp 200 ⟨some "on", []⟩ ""
  else if entity_id = "fan.attic" then .resp 200 ⟨some "off", []⟩ ""
  else if entity_id = "cover.hall_window" then .resp 200 ⟨some "stuck", []⟩ ""
  else .resp 500 ⟨none, []⟩ "Internal Server Error"

/-- Fixture: a hub whose every POST raises a connection error. -/
def postConnError : PostHub := fun _ => .connError "connection refused"

/-- Fixture: a writable input_boolean state point, as in the
repository's own integration test. -/
def boolStateReg : HomeAssistantRegister :=
  { read_only := false, point_name := "bool_state", units := "On / Off",
    reg_type := .int, attributes := [], entity_id := "input_boolean.volttrontest",
    entity_point := "state", value := .vint 0 }

/-- Fixture: a writable climate hvac-mode (state) point typed `int`. -/
def climateStateReg : HomeAssistantRegister :=
  { read_only := false, point_name := "hvac_state", units := "",
    reg_type := .int, attributes := [], entity_id := "climate.thermostat",
    entity_point := "state", value := .vint 0 }

/-- Fixture: a GET oracle reporting the unsupported climate state
`eco` for every entity. -/
def badClimateHub : GetHub := fun _ => .resp 200 ⟨some "eco", []⟩ ""

/-- Fixture: a writable switch point whose configured sub-point is not
one the switch domain supports. -/
def switchBadReg : HomeAssistantRegister :=
  { read_only := false, point_name := "switch_pct", units := "Percent",
    reg_type := .int, attributes := [], entity_id := "switch.pump",
    entity_point := "percent", value := .vint 0 }

/-- Fixture: the registry entry used by the repository's own
integration test, with `Starting Value` 3. -/
def boolStateEntry : RegDef :=
  { entity_id := "input_boolean.volttrontest", entity_point := "state",
    volttron_point_name := "bool_state", units := "On / Off",
    writable := .vbool true, type_name := "int", notes := "lights hallway",
    starting_value := .vint 3, attributes := [] }

/-- Fixture: a registry entry for a climate temperature point whose
`Units` column is `C`. -/
def climateTempEntry : RegDef :=
  { entity_id := "climate.thermostat", entity_point := "temperature",
    volttron_point_name := "temp_set", units := "C", writable := .vbool true,
    type_name := "float", notes := "", starting_value := .vnone, attributes := [] }

/-- Fixture: an unrelated light entry whose `Units` column is `C`. -/
def unrelatedEntryC : RegDef :=
  { entity_id := "light.kitchen", entity_point := "state",
    volttron_point_name := "light_state", units := "C", writable := .vbool true,
    type_name := "int", notes := "", starting_value := .vnone, attributes := [] }

/-- Fixture: the same unrelated light entry with `Units` column `F`. -/
def unrelatedEntryF : RegDef :=
  { unrelatedEntryC with units := "F" }

end Fixtures

section HelperLemmas

lemma post_method_not200 (post : PostHub) (c : ServiceCall) (d : String)
    (h : ∀ txt, post c ≠ .resp 200 txt) :
    ∃ m, post_method post c d = .error (.httpError m) := by
  unfold post_method
  cases hp : post c with
  | resp status text =>
    have hs : ¬ status = 200 := fun he => h text (by rw [hp, he])
    simp [hs]
  | connError e => simp

lemma runPost_newValue (post : PostHub) (c : ServiceCall) (d : String) (v : PValue) :
    (runPost post c d v).newValue = v := by
  unfold runPost; split <;> rfl

lemma runPost_calls (post : PostHub) (c : ServiceCall) (d : String) (v : PValue) :
    (runPost post c d v).calls = [c] := by
  unfold runPost; split <;> rfl

lemma runPost_fail (post : PostHub) (c : ServiceCall) (d : String) (v : PValue)
    (h : ∀ txt, post c ≠ .resp 200 txt) :
    outcomeKind (runPost post c d v).outcome = some .httpError := by
  obtain ⟨m, hm⟩ := post_method_not200 post c d h
  simp [runPost, hm, outcomeKind, PyError.kind]

lemma liftPair_newValue (p : List ServiceCall × Except PyError Unit) (v : PValue) :
    (liftPair p v).newValue = v := by
  rcases p with ⟨cs, out⟩; cases out <;> rfl

lemma liftPair_calls (p : List ServiceCall × Except PyError Unit) (v : PValue) :
    (liftPair p v).calls = p.1 := by
  rcases p with ⟨cs, out⟩; cases out <;> rfl

lemma liftPair_outcomeKind_error (p : List ServiceCall × Except PyError Unit) (v : PValue)
    (e : PyError) (h : p.2 = .error e) :
    outcomeKind (liftPair p v).outcome = some e.kind := by
  rcases p with ⟨cs, out⟩
  cases out <;> simp_all [liftPair, outcomeKind]

lemma set_point_light_newValue (post : PostHub) (r : HomeAssistantRegister) (v : PValue) :
    (set_point_light post r v).newValue = v := by
  unfold set_point_light
  split_ifs <;> simp [runPost_newValue]

lemma set_point_light_fail (post : PostHub) (r : HomeAssistantRegister) (v : PValue)
    (c : ServiceCall) (hc : c ∈ (set_point_light post r v).calls)
    (h : ∀ txt, post c ≠ .resp 200 txt) :
    outcomeKind (set_point_light post r v).outcome = some .httpError := by
  unfold set_point_light at hc ⊢
  split_ifs at hc ⊢ <;>
    first
      | simp at hc
      | (rw [runPost_calls] at hc; simp at hc; subst hc; exact runPost_fail _ _ _ _ h)

lemma set_point_fan_newValue (post : PostHub) (r : HomeAssistantRegister) (v : PValue) :
    (set_point_fan post r v).newValue = v := by
  unfold set_point_fan
  split_ifs <;> simp [runPost_newValue]

lemma set_point_fan_fail (post : PostHub) (r : HomeAssistantRegister) (v : PValue)
    (c : ServiceCall) (hc : c ∈ (set_point_fan post r v).calls)
    (h : ∀ txt, post c ≠ .resp 200 txt) :
    outcomeKind (set_point_fan post r v).outcome = some .httpError := by
  unfold set_point_fan at hc ⊢
  split_ifs at hc ⊢ <;>
    first
      | simp at hc
      | (rw [runPost_calls] at hc; simp at hc; subst hc; exact runPost_fail _ _ _ _ h)

lemma set_point_switch_newValue (post : PostHub) (r : HomeAssistantRegister) (v : PValue) :
    (set_point_switch post r v).newValue = v := by
  unfold set_point_switch
  split_ifs <;> simp [runPost_newValue]

lemma set_point_switch_fail (post : PostHub) (r : HomeAssistantRegister) (v : PValue)
    (c : ServiceCall) (hc : c ∈ (set_point_switch post r v).calls)
    (h : ∀ txt, post c ≠ .resp 200 txt) :
    outcomeKind (set_point_switch post r v).outcome = some .httpError := by
  unfold set_point_switch at hc ⊢
  split_ifs at hc ⊢ <;>
    first
      | simp at hc
      | (rw [runPost_calls] at hc; simp at hc; subst hc; exact runPost_fail _ _ _ _ h)

lemma set_point_cover_newValue (post : PostHub) (r : HomeAssistantRegister) (v : PValue) :
    (set_point_cover post r v).newValue = v := by
  unfold set_point_cover
  split_ifs <;> simp [runPost_newValue]

lemma set_point_cover_fail (post : PostHub) (r : HomeAssistantRegister) (v : PValue)
    (c : ServiceCall) (hc : c ∈ (set_point_cover post r v).calls)
    (h : ∀ txt, post c ≠ .resp 200 txt) :
    outcomeKind (set_point_cover post r v).outcome = some .httpError := by
  unfold set_point_cover at hc ⊢
  split_ifs at hc ⊢ <;>
    first
      | simp at hc
      | (rw [runPost_calls] at hc; simp at hc; subst hc; exact runPost_fail _ _ _ _ h)

lemma liftPair_outcome_ok (p : List ServiceCall × Except PyError Unit) (v : PValue)
    (h : p.2 = .ok ()) : (liftPair p v).outcome = .ok v := by
  rcases p with ⟨cs, out⟩
  cases out <;> simp_all [liftPair]

lemma set_input_boolean_calls (post : PostHub) (entity_id state : String) :
    (set_input_boolean post entity_id state).1 =
      [ServiceCall.inputBooleanService entity_id
        (if state == "on" then "turn_on" else "turn_off")] := rfl

lemma set_input_boolean_conn (post : PostHub) (entity_id state msg : String)
    (h : post (ServiceCall.inputBooleanService entity_id
      (if state == "on" then "turn_on" else "turn_off")) = .connError msg) :
    (set_input_boolean post entity_id state).2 = .error (.httpError msg) := by
  unfold set_input_boolean
  dsimp only
  rw [h]

lemma set_input_boolean_resp (post : PostHub) (entity_id state : String)
    (status : Nat) (txt : String)
    (h : post (ServiceCall.inputBooleanService entity_id
      (if state == "on" then "turn_on" else "turn_off")) = .resp status txt) :
    (set_input_boolean post entity_id state).2 = .ok () := by
  unfold set_input_boolean
  dsimp only
  rw [h]

lemma set_point_input_boolean_newValue (post : PostHub) (r : HomeAssistantRegister)
    (v : PValue) :
    (set_point_input_boolean post r v).newValue = v := by
  unfold set_point_input_boolean
  split_ifs <;> first | rfl | simp [liftPair_newValue]

lemma set_point_input_boolean_conn_fail (post : PostHub) (r : HomeAssistantRegister)
    (v : PValue) (c : ServiceCall) (hc : c ∈ (set_point_input_boolean post r v).calls)
    (msg : String) (h : post c = .connError msg) :
    outcomeKind (set_point_input_boolean post r v).outcome = some .httpError := by
  unfold set_point_input_boolean at hc ⊢
  by_cases h1 : r.entity_point = "state"
  · rw [if_pos h1] at hc ⊢
    by_cases h2 : v.isPyInt = true ∧ (v.asInt = 0 ∨ v.asInt = 1)
    · rw [if_pos h2] at hc ⊢
      rw [liftPair_calls, set_input_boolean_calls, List.mem_singleton] at hc
      subst hc
      exact liftPair_outcomeKind_error _ v (.httpError msg)
        (set_input_boolean_conn post r.entity_id _ msg h)
    · rw [if_neg h2] at hc
      simp at hc
  · rw [if_neg h1] at hc
    simp at hc

lemma set_point_input_boolean_resp_ok (post : PostHub) (r : HomeAssistantRegister)
    (v : PValue) (c : ServiceCall) (hc : c ∈ (set_point_input_boolean post r v).calls)
    (status : Nat) (txt : String) (h : post c = .resp status txt) :
    (set_point_input_boolean post r v).outcome = .ok v := by
  unfold set_point_input_boolean at hc ⊢
  by_cases h1 : r.entity_point = "state"
  · rw [if_pos h1] at hc ⊢
    by_cases h2 : v.isPyInt = true ∧ (v.asInt = 0 ∨ v.asInt = 1)
    · rw [if_pos h2] at hc ⊢
      rw [liftPair_calls, set_input_boolean_calls, List.mem_singleton] at hc
      subst hc
      exact liftPair_outcome_ok _ v
        (set_input_boolean_resp post r.entity_id _ status txt h)
    · rw [if_neg h2] at hc
      simp at hc
  · rw [if_neg h1] at hc
    simp at hc

lemma set_point_climate_newValue (post : PostHub) (units : String)
    (r : HomeAssistantRegister) (v : PValue) :
    (set_point_climate post units r v).newValue = v := by
  unfold set_point_climate
  split_ifs
  · cases climateEncode v.asInt <;> simp [liftPair_newValue]
  · rfl
  · simp [liftPair_newValue]
  · rfl

lemma change_thermostat_mode_fail (post : PostHub) (e m : String) (c : ServiceCall)
    (hc : c ∈ (change_thermostat_mode post e m).1)
    (h : ∀ txt, post c ≠ .resp 200 txt) :
    ∃ msg, (change_thermostat_mode post e m).2 = .error (.httpError msg) := by
  unfold change_thermostat_mode at hc ⊢
  split_ifs at hc ⊢
  · simp at hc
    subst hc
    exact post_method_not200 _ _ _ h
  · simp at hc

lemma set_thermostat_temperature_fail (post : PostHub) (units e : String) (t : PValue)
    (c : ServiceCall) (hc : c ∈ (set_thermostat_temperature post units e t).1)
    (h : ∀ txt, post c ≠ .resp 200 txt) :
    ∃ msg, (set_thermostat_temperature post units e t).2 = .error (.httpError msg) := by
  unfold set_thermostat_temperature at hc ⊢
  split_ifs at hc ⊢
  · cases ht : PValue.toRat t with
    | none => simp [ht] at hc
    | some q =>
      simp only [ht] at hc ⊢
      simp at hc
      subst hc
      exact post_method_not200 _ _ _ h
  · simp at hc
    subst hc
    exact post_method_not200 _ _ _ h
  · simp at hc

lemma set_point_climate_fail (post : PostHub) (units : String) (r : HomeAssistantRegister)
    (v : PValue) (c : ServiceCall) (hc : c ∈ (set_point_climate post units r v).calls)
    (h : ∀ txt, post c ≠ .resp 200 txt) :
    outcomeKind (set_point_climate post units r v).outcome = some .httpError := by
  unfold set_point_climate at hc ⊢
  split_ifs at hc ⊢
  · cases hce : climateEncode v.asInt with
    | some mode =>
      simp only [hce] at hc ⊢
      rw [liftPair_calls] at hc
      obtain ⟨msg, hmsg⟩ := change_thermostat_mode_fail post r.entity_id _ c hc h
      rw [liftPair_outcomeKind_error _ _ _ hmsg]
      rfl
    | none => simp [hce] at hc
  · simp at hc
  · rw [liftPair_calls] at hc
    obtain ⟨msg, hmsg⟩ := set_thermostat_temperature_fail post units r.entity_id v c hc h
    rw [liftPair_outcomeKind_error _ _ _ hmsg]
    rfl
  · simp at hc

lemma set_point_eq (post : PostHub) (units : String) (r : HomeAssistantRegister)
    (value v : PValue) (hro : r.read_only = false)
    (hco : applyRegType r.reg_type value = some v) :
    set_point post units r value =
      match domainOf r.entity_id with
      | .light => set_point_light post r v
      | .inputBoolean => set_point_input_boolean post r v
      | .climate => set_point_climate post units r v
      | .fan => set_point_fan post r v
      | .switch => set_point_switch post r v
      | .cover => set_point_cover post r v
      | .generic => ⟨[], .error (.valueError ("Unsupported entity_id: " ++ r.entity_id
          ++ ". Currently set_point is supported only for thermostats, lights, fans, switches, covers and input_booleans")), v⟩ := by
  unfold set_point
  rw [hco]
  simp [hro]

lemma domainOf_climate_startsWith {e : String} (h : domainOf e = .climate) :
    pyStartsWith e "climate." = true := by
  unfold domainOf at h
  split_ifs at h <;> simp_all

lemma dictInsert_fresh (m : List (String × PValue)) (k : String) (v : PValue)
    (h : ∀ p ∈ m, p.1 ≠ k) : dictInsert m k v = m ++ [(k, v)] := by
  have hany : m.any (fun p => p.1 == k) = false := by
    rw [List.any_eq_false]
    intro p hp
    simp [h p hp]
  unfold dictInsert
  rw [hany]
  simp

lemma scrape_list_general (hub : GetHub) (regs : List HomeAssistantRegister)
    (hnd : (regs.map (fun r => r.point_name)).Nodup) :
    scrape_list hub regs =
      regs.filterMap (fun r => (scrape_register hub r).map (fun v => (r.point_name, v))) := by
  suffices haux : ∀ (rs : List HomeAssistantRegister) (acc : List (String × PValue)),
      (rs.map (fun r => r.point_name)).Nodup →
      (∀ r ∈ rs, ∀ p ∈ acc, p.1 ≠ r.point_name) →
      rs.foldl (fun result r =>
        match scrape_register hub r with
        | some v => dictInsert result r.point_name v
        | none => result) acc =
      acc ++ rs.filterMap (fun r => (scrape_register hub r).map (fun v => (r.point_name, v))) by
    simpa [scrape_list] using haux regs [] hnd (by simp)
  intro rs
  induction rs with
  | nil => intro acc _ _; simp
  | cons r rs ih =>
    intro acc hnd hfresh
    rw [List.map_cons, List.nodup_cons] at hnd
    simp only [List.foldl_cons, List.filterMap_cons]
    cases hsr : scrape_register hub r with
    | none =>
      dsimp only
      rw [ih acc hnd.2 (fun r' hr' p hp => hfresh r' (List.mem_cons_of_mem r hr') p hp)]
      simp
    | some v =>
      dsimp only
      rw [dictInsert_fresh acc r.point_name v
        (fun p hp => hfresh r (List.mem_cons_self r rs) p hp)]
      rw [ih (acc ++ [(r.point_name, v)]) hnd.2 ?_]
      · simp
      · intro r' hr' p hp
        rcases List.mem_append.mp hp with hpa | hpb
        · exact hfresh r' (List.mem_cons_of_mem r hr') p hpa
        · have hpr : p = (r.point_name, v) := by simpa using hpb
          subst hpr
          intro hcontra
          apply hnd.1
          rw [show r.point_name = r'.point_name from hcontra]
          exact List.mem_map.mpr ⟨r', hr', rfl⟩

end HelperLemmas

section Claims

/-- C1 (counterexample): the claim says that on a failed hub call the
point's cached `current_value` is left unchanged; but for the writable
light state point cached at `0`, writing `1` against a hub answering
HTTP 500 raises the transport error *and* leaves the cache at the new
value `1`, because `_set_point` assigns `register.value` before
dispatching. -/
theorem set_point_hub_failure_cache_changed :
    post500 (.lightTurnOn "light.kitchen") = .resp 500 "Internal Server Error" ∧
    (set_point post500 "F" lightStateReg (.vint 1)).calls = [.lightTurnOn "light.kitchen"] ∧
    outcomeKind (set_point post500 "F" lightStateReg (.vint 1)).outcome = some .httpError ∧
    lightStateReg.value = .vint 0 ∧
    (set_point post500 "F" lightStateReg (.vint 1)).newValue = .vint 1 :=
  ⟨rfl, rfl, rfl, rfl, rfl⟩

/-- C1 (amended): for every writable point and every value passing type
coercion, the cached `current_value` is set to the coerced value
*before* any hub call (so after a failed hub call it holds the new
value, not the prior one); for every domain except `input_boolean` a
failed hub call (non-200 response or connection error) propagates as a
raised transport error, while for `input_boolean` state writes a
connection error still propagates but a non-200 response is only
logged — the write returns normally. -/
theorem set_point_writes_cache_before_dispatch (post : PostHub) (units : String)
    (r : HomeAssistantRegister) (value v : PValue)
    (hro : r.read_only = false) (hco : applyRegType r.reg_type value = some v) :
    (set_point post units r value).newValue = v ∧
    (domainOf r.entity_id ≠ .inputBoolean →
      ∀ c ∈ (set_point post units r value).calls,
        (∀ txt, post c ≠ .resp 200 txt) →
          outcomeKind (set_point post units r value).outcome = some .httpError) ∧
    (domainOf r.entity_id = .inputBoolean →
      ∀ c ∈ (set_point post units r value).calls,
        (∀ msg, post c = .connError msg →
          outcomeKind (set_point post units r value).outcome = some .httpError) ∧
        (∀ status txt, post c = .resp status txt →
          (set_point post units r value).outcome = .ok v)) := by
  rw [set_point_eq post units r value v hro hco]
  cases hdom : domainOf r.entity_id with
  | light =>
    exact ⟨set_point_light_newValue post r v,
      fun _ c hc hf => set_point_light_fail post r v c hc hf,
      fun hne => absurd hne (by simp)⟩
  | inputBoolean =>
    refine ⟨set_point_input_boolean_newValue post r v,
      fun hne => absurd rfl hne, fun _ c hc => ⟨?_, ?_⟩⟩
    · exact fun msg hmsg => set_point_input_boolean_conn_fail post r v c hc msg hmsg
    · exact fun status txt hresp =>
        set_point_input_boolean_resp_ok post r v c hc status txt hresp
  | climate =>
    exact ⟨set_point_climate_newValue post units r v,
      fun _ c hc hf => set_point_climate_fail post units r v c hc hf,
      fun hne => absurd hne (by simp)⟩
  | fan =>
    exact ⟨set_point_fan_newValue post r v,
      fun _ c hc hf => set_point_fan_fail post r v c hc hf,
      fun hne => absurd hne (by simp)⟩
  | switch =>
    exact ⟨set_point_switch_newValue post r v,
      fun _ c hc hf => set_point_switch_fail post r v c hc hf,
      fun hne => absurd hne (by simp)⟩
  | cover =>
    exact ⟨set_point_cover_newValue post r v,
      fun _ c hc hf => set_point_cover_fail post r v c hc hf,
      fun hne => absurd hne (by simp)⟩
  | generic =>
    refine ⟨rfl, fun _ c hc _ => ?_, fun hne => absurd hne (by simp)⟩
    simp at hc

/-- C1 (witness): the amended theorem evaluated against concrete hubs —
a light write against an HTTP-500 hub (cache updated, error raised), an
input_boolean write against a connection-refusing hub (error raised),
and an input_boolean write against an HTTP-500 hub (swallowed, write
returns normally). -/
theorem set_point_writes_cache_before_dispatch_witness :
    ((set_point post500 "F" lightStateReg (.vint 1)).newValue = .vint 1 ∧
      outcomeKind (set_point post500 "F" lightStateReg (.vint 1)).outcome =
        some .httpError) ∧
    outcomeKind (set_point postConnError "F" boolStateReg (.vint 1)).outcome =
      some .httpError ∧
    (set_point post500 "F" boolStateReg (.vint 1)).outcome = .ok (.vint 1) := by
  refine ⟨⟨?_, ?_⟩, ?_, ?_⟩
  · exact (set_point_writes_cache_before_dispatch post500 "F" lightStateReg
      (.vint 1) (.vint 1) rfl rfl).1
  · exact (set_point_writes_cache_before_dispatch post500 "F" lightStateReg
      (.vint 1) (.vint 1) rfl rfl).2.1 (by decide) (.lightTurnOn "light.kitchen")
      (by decide) (fun txt htxt => by simp [post500] at htxt)
  · exact ((set_point_writes_cache_before_dispatch postConnError "F" boolStateReg
      (.vint 1) (.vint 1) rfl rfl).2.2 (by decide)
      (.inputBooleanService "input_boolean.volttrontest" "turn_on") (by decide)).1
      "connection refused" rfl
  · exact ((set_point_writes_cache_before_dispatch post500 "F" boolStateReg
      (.vint 1) (.vint 1) rfl rfl).2.2 (by decide)
      (.inputBooleanService "input_boolean.volttrontest" "turn_on") (by decide)).2
      500 "Internal Server Error" rfl

/-- C2 (counterexample): the claim says `get_point` applies the same
decode as scraping and reads the facet named by the configured Entity
Point; but for a light state point named `light_state` whose hub state
is `on`, scraping decodes `1` while `get_point` — which keys on the
*Volttron point name*, not the Entity Point, and applies no decode —
returns the absent-attribute default `0`. -/
theorem get_point_no_decode_counterexample :
    lightStateReg.entity_point = "state" ∧
    exampleGetHub "light.kitchen" = .resp 200 ⟨some "on", []⟩ "" ∧
    get_point exampleGetHub lightStateReg = .ok (.vint 0) ∧
    scrape_register exampleGetHub lightStateReg = some (.vint 1) :=
  ⟨rfl, rfl, rfl, rfl⟩

/-- C2 (amended): `get_point` performs no domain decode: when the hub
answers 200 it returns the raw state string exactly when the point's
*Volttron point name* is the literal `"state"`, and otherwise the raw
attribute named by the Volttron point name (default `0`); the
configured Entity Point is not consulted. -/
theorem get_point_returns_raw_value (hub : GetHub) (r : HomeAssistantRegister)
    (body : EntityData) (txt : String) (h : hub r.entity_id = .resp 200 body txt) :
    get_point hub r = .ok (if r.point_name = "state" then
        (match body.state with | some s => PValue.vstr s | none => PValue.vnone)
      else body.attr r.point_name) := by
  unfold get_point get_entity_data
  rw [h]
  simp only [if_pos rfl]
  split_ifs <;> rfl

/-- C2 (witness): the amended theorem evaluated on the light state
fixture. -/
theorem get_point_returns_raw_value_witness :
    get_point exampleGetHub lightStateReg = .ok (.vint 0) := by
  rw [get_point_returns_raw_value exampleGetHub lightStateReg ⟨some "on", []⟩ "" rfl]
  rfl

/-- C3 (counterexample): the claim says every unexpected hub state
string leaves the point omitted from the scrape result; but a cover
point whose hub state is the unexpected string `stuck` is *included*
in the result with value `0`. -/
theorem scrape_cover_unexpected_state_included :
    exampleGetHub "cover.hall_window" = .resp 200 ⟨some "stuck", []⟩ "" ∧
    scrape_all exampleGetHub [coverStateReg] = [("cover_state", PValue.vint 0)] :=
  ⟨rfl, rfl⟩

/-- C3 (amended): `scrape_all` never raises and per-point failures are
isolated: over distinctly-named registers the result is exactly the
per-register decodes that succeeded, in order — a point whose hub call
fails or whose state fails to decode is omitted while all others are
returned (in the 3-point fixture with one failing hub call, exactly
the other two appear) — except that a cover state point records an
unexpected state string as `0` instead of being omitted. -/
theorem scrape_all_isolates_failures :
    (∀ (hub : GetHub) (regs : List HomeAssistantRegister),
      (regs.map (fun r => r.point_name)).Nodup →
      scrape_list hub regs =
        regs.filterMap (fun r => (scrape_register hub r).map (fun v => (r.point_name, v)))) ∧
    scrape_all exampleGetHub [lightStateReg, switchStateReg, fanStateReg] =
      [("light_state", PValue.vint 1), ("fan_state", PValue.vint 0)] ∧
    (∀ (hub : GetHub) (r : HomeAssistantRegister) (body : EntityData) (txt : String),
      domainOf r.entity_id = .cover → r.entity_point = "state" →
      hub r.entity_id = .resp 200 body txt →
      body.state ≠ some "open" → body.state ≠ some "opening" →
      body.state ≠ some "closed" → body.state ≠ some "closing" →
      scrape_register hub r = some (.vint 0)) := by
  refine ⟨fun hub regs hnd => scrape_list_general hub regs hnd, rfl, ?_⟩
  intro hub r body txt hdom hep hhub h1 h2 h3 h4
  unfold scrape_register get_entity_data
  rw [hhub]
  simp only [hdom]
  unfold scrape_cover
  rw [hep]
  simp only [if_pos rfl]
  split <;> simp_all

/-- C3 (witness): the amended theorem evaluated on concrete register
lists. -/
theorem scrape_all_isolates_failures_witness :
    scrape_list exampleGetHub [lightStateReg, fanStateReg] =
      [("light_state", PValue.vint 1), ("fan_state", PValue.vint 0)] ∧
    scrape_register exampleGetHub coverStateReg = some (.vint 0) := by
  constructor
  · rw [scrape_all_isolates_failures.1 exampleGetHub [lightStateReg, fanStateReg] (by decide)]
    rfl
  · exact scrape_all_isolates_failures.2.2 exampleGetHub coverStateReg ⟨some "stuck", []⟩ ""
      (by decide) rfl rfl (by decide) (by decide) (by decide) (by decide)

/-- C4: climate state encode and decode are mutually inverse bijections
between `{0, 2, 3, 4}` and `{off, heat, cool, auto}`; a climate state
write of any integer outside the set fails with a `ValueError` before
any hub call; a scrape that reads any other state string fails for
that point only (the point is omitted, and over distinctly-named
registers the result is exactly the per-register decodes that
succeeded). -/
theorem climate_state_codec_bijection :
    (∀ (n : Int) (s : String), climateEncode n = some s ↔ climateDecode (some s) = some n) ∧
    (∀ n : Int, (climateEncode n).isSome ↔ (n = 0 ∨ n = 2 ∨ n = 3 ∨ n = 4)) ∧
    (∀ s : String, (climateDecode (some s)).isSome ↔
      (s = "off" ∨ s = "heat" ∨ s = "cool" ∨ s = "auto")) ∧
    (∀ (post : PostHub) (units : String) (r : HomeAssistantRegister) (n : Int),
      r.read_only = false → domainOf r.entity_id = .climate → r.entity_point = "state" →
      r.reg_type = .int → climateEncode n = none →
      (set_point post units r (.vint n)).calls = [] ∧
      outcomeKind (set_point post units r (.vint n)).outcome = some .valueError) ∧
    (∀ (hub : GetHub) (r : HomeAssistantRegister) (body : EntityData) (txt : String),
      domainOf r.entity_id = .climate → r.entity_point = "state" →
      hub r.entity_id = .resp 200 body txt → climateDecode body.state = none →
      scrape_register hub r = none) ∧
    (∀ (hub : GetHub) (regs : List HomeAssistantRegister),
      (regs.map (fun r => r.point_name)).Nodup →
      scrape_list hub regs =
        regs.filterMap (fun r => (scrape_register hub r).map (fun v => (r.point_name, v)))) := by
  refine ⟨?_, ?_, ?_, ?_, ?_, fun hub regs hnd => scrape_list_general hub regs hnd⟩
  · intro n s
    constructor
    · intro h
      unfold climateEncode at h
      split_ifs at h with h0 h2 h3 h4 <;>
        first
          | (injection h with hs; subst hs; subst h0; rfl)
          | (injection h with hs; subst hs; subst h2; rfl)
          | (injection h with hs; subst hs; subst h3; rfl)
          | (injection h with hs; subst hs; subst h4; rfl)
          | simp at h
    · intro h
      unfold climateDecode at h
      split_ifs at h with h0 h2 h3 h4 <;>
        first
          | (injection h0 with hs; subst hs; injection h with hn; subst hn; rfl)
          | (injection h2 with hs; subst hs; injection h with hn; subst hn; rfl)
          | (injection h3 with hs; subst hs; injection h with hn; subst hn; rfl)
          | (injection h4 with hs; subst hs; injection h with hn; subst hn; rfl)
          | simp at h
  · intro n
    unfold climateEncode
    split_ifs with h0 h2 h3 h4 <;> simp_all
  · intro s
    unfold climateDecode
    split_ifs with h0 h2 h3 h4 <;> simp_all
  · intro post units r n hro hdom hep hty hcen
    have hco : applyRegType r.reg_type (.vint n) = some (.vint n) := by rw [hty]; rfl
    rw [set_point_eq post units r (.vint n) (.vint n) hro hco, hdom]
    unfold set_point_climate
    rw [hep]
    simp [PValue.isPyInt, PValue.asInt, hcen, outcomeKind, PyError.kind]
  · intro hub r body txt hdom hep hhub hdec
    unfold scrape_register get_entity_data
    rw [hhub]
    simp [hdom, hep, hdec]

/-- C4 (witness): the codec and both failure modes evaluated on the
climate state fixture — an invalid write value `5` and the unsupported
hub state `eco`. -/
theorem climate_state_codec_bijection_witness :
    (climateEncode 2 = some "heat" ↔ climateDecode (some "heat") = some 2) ∧
    ((set_point post500 "F" climateStateReg (.vint 5)).calls = [] ∧
      outcomeKind (set_point post500 "F" climateStateReg (.vint 5)).outcome =
        some .valueError) ∧
    scrape_register badClimateHub climateStateReg = none := by
  refine ⟨climate_state_codec_bijection.1 2 "heat", ?_, ?_⟩
  · exact climate_state_codec_bijection.2.2.2.1 post500 "F" climateStateReg 5 rfl
      (by decide) rfl rfl rfl
  · exact climate_state_codec_bijection.2.2.2.2.1 badClimateHub climateStateReg
      ⟨some "eco", []⟩ "" (by decide) rfl rfl rfl

/-- C5: for every climate temperature write whose value coerces to a
number, the dispatched payload carries `round((f - 32) * 5 / 9, 1)`
when the interface units field is `"C"` and the unconverted value
otherwise; concretely, writing `98.6` dispatches `temperature: 37.0`
under units `C` and `temperature: 98.6` under units `F`. -/
theorem climate_temperature_conversion :
    (∀ (post : PostHub) (units : String) (r : HomeAssistantRegister)
        (value v : PValue) (q : Rat),
      r.read_only = false → domainOf r.entity_id = .climate →
      r.entity_point = "temperature" →
      applyRegType r.reg_type value = some v → v.toRat = some q →
      (set_point post units r value).calls =
        [ServiceCall.climateSetTemperature r.entity_id
          (if units = "C" then .vfloat (pyRound1 ((q - 32) * 5 / 9)) else v)]) ∧
    (set_point post200 "C" climateTempReg (.vfloat 98.6)).calls =
      [ServiceCall.climateSetTemperature "climate.thermostat" (.vfloat 37)] ∧
    (set_point post200 "F" climateTempReg (.vfloat 98.6)).calls =
      [ServiceCall.climateSetTemperature "climate.thermostat" (.vfloat 98.6)] := by
  refine ⟨?_, ?_, rfl⟩
  · intro post units r value v q hro hdom hep hco hq
    rw [set_point_eq post units r value v hro hco, hdom]
    unfold set_point_climate
    rw [hep]
    rw [if_neg (by decide : ¬("temperature" : String) = "state"), if_pos rfl]
    rw [liftPair_calls]
    have hsw := domainOf_climate_startsWith hdom
    by_cases hu : units = "C"
    · simp [set_thermostat_temperature, hsw, hu, hq]
    · simp [set_thermostat_temperature, hsw, hu]
  · have h37 : pyRound1 (((98.6 : Rat) - 32) * 5 / 9) = (37 : Rat) := by
      norm_num [pyRound1, roundHalfEven]
    rw [← h37]
    rfl

/-- C5 (witness): the general conversion theorem evaluated on the
climate temperature fixture at `98.6` with units `C`. -/
theorem climate_temperature_conversion_witness :
    (set_point post200 "C" climateTempReg (.vfloat 98.6)).calls =
      [ServiceCall.climateSetTemperature "climate.thermostat"
        (if "C" = "C" then PValue.vfloat (pyRound1 (((98.6 : Rat) - 32) * 5 / 9))
         else PValue.vfloat 98.6)] :=
  climate_temperature_conversion.1 post200 "C" climateTempReg (.vfloat 98.6)
    (.vfloat 98.6) 98.6 rfl (by decide) rfl rfl rfl

/-- C6 (counterexample): the claim says every supported domain rejects
an unsupported sub-point at write time; but writing `5` to an
`input_boolean` point configured with sub-point `percentage` raises
nothing — the write returns the value and makes no hub call. -/
theorem input_boolean_sub_point_silently_accepted :
    inputBooleanPctReg.entity_id = "input_boolean.volttrontest" ∧
    inputBooleanPctReg.entity_point = "percentage" ∧
    (set_point post500 "F" inputBooleanPctReg (.vint 5)).outcome = .ok (.vint 5) ∧
    (set_point post500 "F" inputBooleanPctReg (.vint 5)).calls = [] :=
  ⟨rfl, rfl, rfl, rfl⟩

/-- C6 (amended): for light, climate, fan, switch and cover, writing to
a point whose sub-point is not one the domain supports raises a
`ValueError` with no hub call; for `input_boolean` an unsupported
sub-point is only logged — the write returns the coerced value with no
hub call and no error. -/
theorem unsupported_sub_point_write_behavior (post : PostHub) (units : String)
    (r : HomeAssistantRegister) (value v : PValue) (hro : r.read_only = false)
    (hco : applyRegType r.reg_type value = some v) :
    (domainOf r.entity_id = .light → r.entity_point ≠ "state" →
        r.entity_point ≠ "brightness" →
        (set_point post units r value).calls = [] ∧
        outcomeKind (set_point post units r value).outcome = some .valueError) ∧
    (domainOf r.entity_id = .climate → r.entity_point ≠ "state" →
        r.entity_point ≠ "temperature" →
        (set_point post units r value).calls = [] ∧
        outcomeKind (set_point post units r value).outcome = some .valueError) ∧
    (domainOf r.entity_id = .fan → r.entity_point ≠ "state" →
        r.entity_point ≠ "percentage" →
        (set_point post units r value).calls = [] ∧
        outcomeKind (set_point post units r value).outcome = some .valueError) ∧
    (domainOf r.entity_id = .switch → r.entity_point ≠ "state" →
        (set_point post units r value).calls = [] ∧
        outcomeKind (set_point post units r value).outcome = some .valueError) ∧
    (domainOf r.entity_id = .cover → r.entity_point ≠ "state" →
        r.entity_point ≠ "position" →
        (set_point post units r value).calls = [] ∧
        outcomeKind (set_point post units r value).outcome = some .valueError) ∧
    (domainOf r.entity_id = .inputBoolean → r.entity_point ≠ "state" →
        (set_point post units r value).calls = [] ∧
        (set_point post units r value).outcome = .ok v) := by
  rw [set_point_eq post units r value v hro hco]
  refine ⟨?_, ?_, ?_, ?_, ?_, ?_⟩
  · intro hdom h1 h2
    rw [hdom]
    unfold set_point_light
    rw [if_neg h1, if_neg h2]
    exact ⟨rfl, rfl⟩
  · intro hdom h1 h2
    rw [hdom]
    unfold set_point_climate
    rw [if_neg h1, if_neg h2]
    exact ⟨rfl, rfl⟩
  · intro hdom h1 h2
    rw [hdom]
    unfold set_point_fan
    rw [if_neg h1, if_neg h2]
    exact ⟨rfl, rfl⟩
  · intro hdom h1
    rw [hdom]
    unfold set_point_switch
    rw [if_neg h1]
    exact ⟨rfl, rfl⟩
  · intro hdom h1 h2
    rw [hdom]
    unfold set_point_cover
    rw [if_neg h1, if_neg h2]
    exact ⟨rfl, rfl⟩
  · intro hdom h1
    rw [hdom]
    unfold set_point_input_boolean
    rw [if_neg h1]
    exact ⟨rfl, rfl⟩

/-- C6 (witness): the amended theorem evaluated on a switch point with
unsupported sub-point `percent` and on the input_boolean `percentage`
fixture. -/
theorem unsupported_sub_point_write_behavior_witness :
    ((set_point post500 "F" switchBadReg (.vint 1)).calls = [] ∧
      outcomeKind (set_point post500 "F" switchBadReg (.vint 1)).outcome =
        some .valueError) ∧
    ((set_point post500 "F" inputBooleanPctReg (.vint 5)).calls = [] ∧
      (set_point post500 "F" inputBooleanPctReg (.vint 5)).outcome = .ok (.vint 5)) := by
  constructor
  · exact (unsupported_sub_point_write_behavior post500 "F" switchBadReg (.vint 1)
      (.vint 1) rfl rfl).2.2.2.1 (by decide) (by decide)
  · exact (unsupported_sub_point_write_behavior post500 "F" inputBooleanPctReg (.vint 5)
      (.vint 5) rfl rfl).2.2.2.2.2 (by decide) (by decide)

/-- C7 (code bug): the spec says every point's cache is initialised
from the registry entry's `Starting Value`; but `parse_config` binds
`default_value` to the literal string `"Starting Value"` and the
register constructor ignores it, so the register built from the
repository's own test entry (whose `Starting Value` is `3`) has cached
value `None`, and the recorded default is `None` as well. -/
theorem parse_config_ignores_starting_value :
    boolStateEntry.starting_value = PValue.vint 3 ∧
    (parse_config initialState [boolStateEntry]).registers =
      [{ read_only := false, point_name := "bool_state", units := "On / Off",
         reg_type := .int, attributes := [], entity_id := "input_boolean.volttrontest",
         entity_point := "state", value := PValue.vnone }] ∧
    (parse_config initialState [boolStateEntry]).defaults =
      [("bool_state", PValue.vnone)] ∧
    decide (PValue.vnone = PValue.vint 3) = false :=
  ⟨rfl, rfl, rfl, rfl⟩

/-- C8: writing to a point configured read only raises an `IOError`
before any coercion, issues no HTTP call, and leaves the cache
untouched. -/
theorem read_only_write_rejected_without_call (post : PostHub) (units : String)
    (r : HomeAssistantRegister) (value : PValue) (h : r.read_only = true) :
    (set_point post units r value).calls = [] ∧
    outcomeKind (set_point post units r value).outcome = some .ioError ∧
    (set_point post units r value).newValue = r.value := by
  simp [set_point, h, outcomeKind, PyError.kind]

/-- C8 (witness): the read-only theorem evaluated on the generic
sensor fixture. -/
theorem read_only_write_rejected_without_call_witness :
    (set_point post500 "F" sensorReg (.vfloat 72)).calls = [] ∧
    outcomeKind (set_point post500 "F" sensorReg (.vfloat 72)).outcome = some .ioError ∧
    (set_point post500 "F" sensorReg (.vfloat 72)).newValue = sensorReg.value :=
  read_only_write_rejected_without_call post500 "F" sensorReg (.vfloat 72) rfl

/-- C9: a light brightness write of any integer outside `[0, 255]`
(such as `256` or `-1`) fails with a `ValueError` before any HTTP
call, while a write of `128` against a 200-responding hub succeeds and
dispatches a light turn_on payload carrying `brightness: 128`. -/
theorem brightness_write_validation (post : PostHub) (units : String)
    (r : HomeAssistantRegister) (hro : r.read_only = false)
    (hdom : domainOf r.entity_id = .light) (hep : r.entity_point = "brightness")
    (hty : r.reg_type = .int) :
    (∀ n : Int, (n < 0 ∨ 255 < n) →
      (set_point post units r (.vint n)).calls = [] ∧
      outcomeKind (set_point post units r (.vint n)).outcome = some .valueError) ∧
    (∀ txt, post (.lightBrightness r.entity_id 128) = .resp 200 txt →
      set_point post units r (.vint 128) =
        ⟨[.lightBrightness r.entity_id 128], .ok (.vint 128), .vint 128⟩) := by
  constructor
  · intro n hn
    have hco : applyRegType r.reg_type (.vint n) = some (.vint n) := by rw [hty]; rfl
    rw [set_point_eq post units r (.vint n) (.vint n) hro hco, hdom]
    unfold set_point_light
    rw [hep]
    have hcond : ¬((PValue.vint n).isPyInt = true ∧ 0 ≤ (PValue.vint n).asInt ∧
        (PValue.vint n).asInt ≤ 255) := by
      simp only [PValue.isPyInt, PValue.asInt]
      rintro ⟨-, h0, h255⟩
      rcases hn with h | h <;> omega
    rw [if_neg (by decide : ¬("brightness" : String) = "state"), if_pos rfl, if_neg hcond]
    exact ⟨rfl, rfl⟩
  · intro txt hpost
    have hco : applyRegType r.reg_type (.vint 128) = some (.vint 128) := by rw [hty]; rfl
    rw [set_point_eq post units r (.vint 128) (.vint 128) hro hco, hdom]
    unfold set_point_light
    rw [hep]
    rw [if_neg (by decide : ¬("brightness" : String) = "state"), if_pos rfl,
      if_pos (by decide : (PValue.vint 128).isPyInt = true ∧
        0 ≤ (PValue.vint 128).asInt ∧ (PValue.vint 128).asInt ≤ 255)]
    unfold runPost post_method
    dsimp only [PValue.asInt]
    rw [hpost]
    rfl

/-- C9 (witness): the brightness theorem evaluated on the brightness
fixture at `256` (rejected) and `128` (dispatched). -/
theorem brightness_write_validation_witness :
    ((set_point post200 "F" brightnessReg (.vint 256)).calls = [] ∧
      outcomeKind (set_point post200 "F" brightnessReg (.vint 256)).outcome =
        some .valueError) ∧
    set_point post200 "F" brightnessReg (.vint 128) =
      ⟨[.lightBrightness "light.kitchen" 128], .ok (.vint 128), .vint 128⟩ := by
  constructor
  · exact (brightness_write_validation post200 "F" brightnessReg rfl (by decide)
      rfl rfl).1 256 (by omega)
  · exact (brightness_write_validation post200 "F" brightnessReg rfl (by decide)
      rfl rfl).2 "OK" rfl

/-- C10: the `units` field consulted by the temperature conversion is a
single interface-wide field equal, after `parse_config`, to the
`Units` column of the last entry parsed (entries with an empty entity
id are skipped); two configurations differing only in an unrelated
last entry's `Units` (`C` vs `F`) therefore make the same climate
temperature write dispatch different payloads. -/
theorem units_field_shared_last_entry_wins :
    (∀ (s : DriverState) (l : List RegDef),
      (parse_config s l).units =
        l.foldl (fun u e => if e.entity_id = "" then u else some e.units) s.units) ∧
    (parse_config initialState [climateTempEntry, unrelatedEntryC]).units = some "C" ∧
    (parse_config initialState [climateTempEntry, unrelatedEntryF]).units = some "F" ∧
    (set_point post200 "C" climateTempReg (.vfloat 98.6)).calls ≠
      (set_point post200 "F" climateTempReg (.vfloat 98.6)).calls := by
  refine ⟨?_, rfl, rfl, ?_⟩
  · intro s l
    induction l generalizing s with
    | nil => rfl
    | cons e es ih =>
      simp only [parse_config, List.foldl_cons] at ih ⊢
      rw [ih]
      congr 1
      unfold parse_config_entry
      by_cases he : e.entity_id = ""
      · rw [if_pos he, if_pos he]
      · rw [if_neg he, if_neg he]
  · intro heq
    have h37 : pyRound1 (((98.6 : Rat) - 32) * 5 / 9) = (37 : Rat) := by
      norm_num [pyRound1, roundHalfEven]
    have h1 : (set_point post200 "C" climateTempReg (.vfloat 98.6)).calls =
        [ServiceCall.climateSetTemperature "climate.thermostat"
          (.vfloat (pyRound1 (((98.6 : Rat) - 32) * 5 / 9)))] := rfl
    have h2 : (set_point post200 "F" climateTempReg (.vfloat 98.6)).calls =
        [ServiceCall.climateSetTemperature "climate.thermostat" (.vfloat 98.6)] := rfl
    rw [h1, h2, h37] at heq
    simp at heq
    norm_num at heq

/-- C10 (witness): the fold characterisation of the shared units field
evaluated on the two-entry configuration ending in units `F`. -/
theorem units_field_shared_last_entry_wins_witness :
    (parse_config initialState [climateTempEntry, unrelatedEntryF]).units =
      [climateTempEntry, unrelatedEntryF].foldl
        (fun u e => if e.entity_id = "" then u else some e.units) initialState.units :=
  units_field_shared_last_entry_wins.1 initialState [climateTempEntry, unrelatedEntryF]

end Claims

end HomeAssistant
